import Mathlib

/-!
Verification of the era-engine control/synchronization core.

Shallow embedding of the subsystems the claims are about:
* the per-entity action state (`Entity.setAction`, `Entity.clearInput`,
  `Entity.getForce`);
* the physics sync codec (`Entity.serializePhysics`, `Entity.consumeUpdate`);
* the controller polling frame (`Controls.getRawControllerInput`) and entity
  registration (`Controls.registerEntity`);
* the network session (`Network.emitAndAwaitResponse`, `Network.waitForMessage`,
  the plain HTTP-style calls and `Network.createError`).

JavaScript numbers are modelled as rationals (`ℚ`); JS objects used as
string/number-keyed maps are modelled as association lists in insertion order,
with `objSet`/`objDelete` mirroring property assignment and `delete`.
-/

/-- JS object property assignment `m[k] = v`: overwrite in place when the key is
present (keeping its position, as JS objects do), otherwise append. -/
def objSet {α β : Type} [BEq α] (m : List (α × β)) (k : α) (v : β) : List (α × β) :=
  if (List.lookup k m).isSome then
    m.map (fun p => if p.1 == k then (k, v) else p)
  else
    m ++ [(k, v)]

/-- JS `delete m[k]`: drop every entry for key `k`. -/
def objDelete {α β : Type} [BEq α] (m : List (α × β)) (k : α) : List (α × β) :=
  m.filter (fun p => !(p.1 == k))

/-! ## Entity action state

Source (`Entity`): `this.actions = {}` maps an action id to a pressure value;
`setAction` / `clearInput` / `getForce`.  We additionally count the calls to
`this.parentGame.sendInput(this)` (the downstream propagation) in `sendCount`.
-/

/-- State of an entity as far as input is concerned: the `actions` container,
the mouse-movement accumulator, and the number of `sendInput` propagations
performed so far. -/
structure EntityState where
  actions : List (Nat × ℚ)
  mouseMovement : ℚ × ℚ
  sendCount : Nat
deriving Repr, DecidableEq

/-- The entity constructor: `this.actions = {}`, `this.mouseMovement = {x:0,y:0}`. -/
def initialEntityState : EntityState :=
  { actions := [], mouseMovement := (0, 0), sendCount := 0 }

/-- The store half of `Entity.setAction`, after the no-change guard:
`if (value !== 0) this.actions[action] = value; else delete this.actions[action];
this.parentGame.sendInput(this);` -/
def setActionStore (st : EntityState) (action : Nat) (value : ℚ) : EntityState :=
  { st with
    actions := if value ≠ 0 then objSet st.actions action value
               else objDelete st.actions action,
    sendCount := st.sendCount + 1 }

/-- `Entity.setAction(action, value)`.  The guard
`if (this.actions[action] && this.actions[action] === value) return;`
requires the stored value to be truthy (for a rational number: nonzero) and
strictly equal to the new value. -/
def setAction (st : EntityState) (action : Nat) (value : ℚ) : EntityState :=
  match List.lookup action st.actions with
  | some w => if w ≠ 0 ∧ w = value then st else setActionStore st action value
  | none => setActionStore st action value

/-- `Entity.clearInput()`: empty the actions, reset the mouse accumulator to the
origin, then `this.parentGame.sendInput(this)`. -/
def clearInput (st : EntityState) : EntityState :=
  { actions := [], mouseMovement := (0, 0), sendCount := st.sendCount + 1 }

/-- `Entity.getForce(binding)`: `this.actions[binding.binding_id] || 0` — the
stored value when present and truthy, `0` otherwise; for rationals this is the
stored value with default `0`. -/
def getForce (st : EntityState) (bindingId : Nat) : ℚ :=
  (List.lookup bindingId st.actions).getD 0

/-- An input-mutation operation on an entity: `setAction` or `clearInput`. -/
inductive ActionOp
  | set (action : Nat) (value : ℚ)
  | clear
deriving Repr

/-- Apply one operation. -/
def applyOp (st : EntityState) : ActionOp → EntityState
  | .set a v => setAction st a v
  | .clear => clearInput st

/-- Apply a sequence of operations, oldest first. -/
def applyOps (st : EntityState) (ops : List ActionOp) : EntityState :=
  ops.foldl applyOp st

/-! ## Physics sync codec

Source: `Entity.serializePhysics` renders each component with `toFixed(4)` into
the wire tuple `[[angularVelocity], interpolatedPosition, velocity, [angle]]`;
`Entity.consumeUpdate` destructures the tuple and writes onto the target body
(`p2.vec2.copy` for position and velocity).  A wire component is modelled by
the numeric value of its 4-decimal string (JS coerces the singleton arrays and
strings back to numbers when they are used arithmetically).
-/

/-- `Number.prototype.toFixed(4)` as a value: the nearest multiple of `10⁻⁴`,
ties rounded toward the larger candidate (ECMA-262 picks the larger `n`). -/
def toFixed4 (x : ℚ) : ℚ :=
  ((⌊x * 10000 + 1 / 2⌋ : ℤ) : ℚ) / 10000

/-- A p2 physics body, restricted to the kinematic fields the codec touches.
`interpolatedPosition` is the field `serializePhysics` reads; `consumeUpdate`
writes `position`. -/
structure PhysicsBody where
  angularVelocity : ℚ
  interpolatedPosition : ℚ × ℚ
  position : ℚ × ℚ
  velocity : ℚ × ℚ
  angle : ℚ
deriving Repr, DecidableEq

/-- The wire tuple `[[angularVelocity], [posX, posY], [velX, velY], [angle]]`,
each component the numeric value of a 4-decimal fixed-point string. -/
structure PhysicsSnapshot where
  angularVelocity : ℚ
  position : ℚ × ℚ
  velocity : ℚ × ℚ
  angle : ℚ
deriving Repr, DecidableEq

/-- `Entity.serializePhysics()`: `null` when there is no physics body, otherwise
the 4-component fixed-precision tuple. -/
def serializePhysics (body : Option PhysicsBody) : Option PhysicsSnapshot :=
  match body with
  | none => none
  | some b =>
    some
      { angularVelocity := toFixed4 b.angularVelocity
        position := (toFixed4 b.interpolatedPosition.1, toFixed4 b.interpolatedPosition.2)
        velocity := (toFixed4 b.velocity.1, toFixed4 b.velocity.2)
        angle := toFixed4 b.angle }

/-- `Entity.consumeUpdate(physics)`: no-op when `physics` is absent, otherwise
write angular velocity, angle, position and velocity onto the target body. -/
def consumeUpdate (physics : Option PhysicsSnapshot) (body : PhysicsBody) : PhysicsBody :=
  match physics with
  | none => body
  | some s =>
    { body with
      angularVelocity := s.angularVelocity
      angle := s.angle
      position := s.position
      velocity := s.velocity }

/-! ## Controller polling frame

Source: `Controls.getRawControllerInput()`.  The emitted object is keyed by the
strings `axes0, axes1, …` and `button0, button1, …`; we model the key space by
`CKey` and the emitted object by a partial map `CKey → Option ℚ`.  The method
stores the emitted object in `this.previousInput` for the next tick.
-/

/-- A raw controller input key: `axes${i}` or `button${i}`. -/
inductive CKey
  | axes (i : Nat)
  | button (i : Nat)
deriving Repr, DecidableEq

/-- `isOutOfDeadzone`: whether any axis magnitude strictly exceeds
`this.movementDeadzone`. -/
def isOutOfDeadzone (movementDeadzone : ℚ) (axes : List ℚ) : Bool :=
  axes.any (fun val => |val| > movementDeadzone)

/-- The raw frame before edge suppression: for each axis index, the reversed
axis value, forced to `0` when every axis is inside the deadzone; for each
button index, the button value clamped to `0` when its magnitude is inside the
deadzone.  Keys out of range are absent. -/
def rawFrameVal (movementDeadzone : ℚ) (axes buttons : List ℚ) : CKey → Option ℚ
  | .axes i =>
    (axes.get? i).map (fun val =>
      if isOutOfDeadzone movementDeadzone axes then -val else 0)
  | .button i =>
    (buttons.get? i).map (fun val =>
      if |val| > movementDeadzone then val else 0)

/-- `this.previousInput[key] && this.previousInput[key] !== 0`: for a rational
value the conjunction collapses to "present and nonzero". -/
def previousHadValue (previousInput : CKey → Option ℚ) (k : CKey) : Bool :=
  match previousInput k with
  | none => false
  | some w => w ≠ 0

/-- `Controls.getRawControllerInput()` for one tick: build the raw frame, then
delete every key whose value is `0` unless the previous emitted frame held a
nonzero value for it.  With no controller the emitted object is empty.  The
returned map is also the `previousInput` of the next tick. -/
def getRawControllerInput (hasController : Bool) (movementDeadzone : ℚ)
    (previousInput : CKey → Option ℚ) (axes buttons : List ℚ) : CKey → Option ℚ :=
  if hasController then
    fun k =>
      match rawFrameVal movementDeadzone axes buttons k with
      | none => none
      | some v =>
        if v = 0 ∧ previousHadValue previousInput k = false then none else some v
  else
    fun _ => none

/-! ## Controls entity registration

Source: `Controls.registerEntity(entity)` — a guard that only logs
`console.error('Must pass in an entity')`, followed unconditionally by
`this.registeredEntities.set(entity.uuid, entity)`.
-/

/-- An entity as seen by `Controls.registerEntity`: its `uuid` and an optional
`actions` container (absent models an entity built without one). -/
structure ControlsEntity where
  uuid : String
  actions : Option (List (Nat × ℚ))
deriving Repr, DecidableEq

/-- `Controls.registerEntity(entity)`.  The argument `none` models calling with
`null`/`undefined`.  Returns the flag "console.error was invoked" together with
either the updated `registeredEntities` map, or `.error ()` when the JS would
throw a `TypeError` (reading `entity.uuid` off `null`). -/
def registerEntity (entity : Option ControlsEntity)
    (registeredEntities : List (String × ControlsEntity)) :
    Bool × Except Unit (List (String × ControlsEntity)) :=
  let errorLogged :=
    match entity with
    | none => true
    | some e => e.actions.isNone
  match entity with
  | none => (errorLogged, .error ())
  | some e => (errorLogged, .ok (objSet registeredEntities e.uuid e))

/-! ## Network session: socket calls

Source: `Network.emitAndAwaitResponse`, `Network.waitForMessage`.  The state we
track is whether a socket is installed, the `pendingResponses` set (modelled as
a duplicate-free list in insertion order), and the set of endpoints carrying an
installed `socket.once` listener.  Each call is modelled as a step returning
the successor state together with the error it throws, if any; a throw happens
before any mutation, so the state is returned unchanged in that case.
-/

/-- Error values thrown by the socket calls. -/
inductive NetError
  | noSocket
  | listenerAlreadyInstalled
deriving Repr, DecidableEq

/-- The network session state. -/
structure NetworkState where
  socket : Bool
  pendingResponses : List String
  listeners : List String
deriving Repr, DecidableEq

/-- `Set.prototype.add`: append unless already present. -/
def setAdd (s : List String) (x : String) : List String :=
  if x ∈ s then s else s ++ [x]

/-- `socket.removeAllListeners(endpoint)`. -/
def removeAllListeners (l : List String) (endpoint : String) : List String :=
  l.filter (fun e => !(e == endpoint))

/-- `socket.once(endpoint, …)`: install a one-shot listener for `endpoint`. -/
def installOnce (l : List String) (endpoint : String) : List String :=
  l ++ [endpoint]

/-- `Network.emitAndAwaitResponse(endpoint, sentData, responseEndpoint)`.
Throws `No socket installed.` without a socket; defaults a falsy
`responseEndpoint` to `endpoint`; throws `Listener already installed.` when
either endpoint is pending; otherwise adds both endpoints to
`pendingResponses`, removes any stale listeners, installs the one-shot
response listener and emits. -/
def emitAndAwaitResponse (endpoint : String) (respEndpoint : Option String)
    (s : NetworkState) : NetworkState × Option NetError :=
  if s.socket = false then
    (s, some .noSocket)
  else
    let responseEndpoint :=
      match respEndpoint with
      | none => endpoint
      | some r => if r = "" then endpoint else r
    if endpoint ∈ s.pendingResponses ∨ responseEndpoint ∈ s.pendingResponses then
      (s, some .listenerAlreadyInstalled)
    else
      ({ s with
         pendingResponses := setAdd (setAdd s.pendingResponses endpoint) responseEndpoint
         listeners :=
           installOnce
             (removeAllListeners (removeAllListeners s.listeners endpoint) responseEndpoint)
             responseEndpoint },
       none)

/-- `Network.waitForMessage(endpoint)`: same guards, for a single endpoint;
installs the one-shot listener without emitting anything. -/
def waitForMessage (endpoint : String) (s : NetworkState) :
    NetworkState × Option NetError :=
  if s.socket = false then
    (s, some .noSocket)
  else if endpoint ∈ s.pendingResponses then
    (s, some .listenerAlreadyInstalled)
  else
    ({ s with
       pendingResponses := setAdd s.pendingResponses endpoint
       listeners := installOnce (removeAllListeners s.listeners endpoint) endpoint },
     none)

/-- A message arriving on `endpoint`: the `socket.once` listener for it, if
any, fires (resolving the awaiting call) and is removed.  Nothing in the source
ever deletes from `pendingResponses`. -/
def receiveMessage (s : NetworkState) (endpoint : String) : NetworkState :=
  { s with listeners := s.listeners.filter (fun e => !(e == endpoint)) }

/-! ## Network session: plain HTTP-style calls

Source: `Network.createGetRequest`, `createPostRequest`, `createDeleteRequest`
and `createError`.  A response body is modelled by whether `JSON.parse`
succeeds on it and, when it does, by its `message` field; the request outcome
is resolution with the parsed body, rejection with an error message, or no
settlement at all (a `JSON.parse` throw inside the load handler leaves the
promise pending forever).
-/

/-- An HTTP response body as the handlers see it. -/
inductive RespBody
  | unparseable (raw : String)
  | parsedBody (message : Option String) (raw : String)
deriving Repr, DecidableEq

/-- `Network.createError(req)`: `JSON.parse(req.responseText).message`, falling
back to the raw text when parsing throws.  A parsed body without a `message`
field yields `new Error(undefined)`, whose message is the empty string. -/
def createError : RespBody → String
  | .unparseable raw => raw
  | .parsedBody (some m) _ => m
  | .parsedBody none _ => ""

/-- How a plain request promise settles. -/
inductive ReqOutcome
  | resolvedWith (b : RespBody)
  | rejectedWith (message : String)
  | unsettled
deriving Repr, DecidableEq

/-- `Network.createGetRequest` load handler: resolve with the parsed body on
status 200, otherwise reject with `createError`. -/
def createGetRequest (status : Nat) (body : RespBody) : ReqOutcome :=
  if status = 200 then
    match body with
    | .parsedBody m raw => .resolvedWith (.parsedBody m raw)
    | .unparseable _ => .unsettled
  else
    .rejectedWith (createError body)

/-- `Network.createPostRequest` load handler: resolve with the parsed body on
status 200 or 304, otherwise reject with `createError`. -/
def createPostRequest (status : Nat) (body : RespBody) : ReqOutcome :=
  if status = 200 ∨ status = 304 then
    match body with
    | .parsedBody m raw => .resolvedWith (.parsedBody m raw)
    | .unparseable _ => .unsettled
  else
    .rejectedWith (createError body)

/-- `Network.createDeleteRequest` load handler: resolve with the parsed body on
status 200, otherwise reject with `createError`. -/
def createDeleteRequest (status : Nat) (body : RespBody) : ReqOutcome :=
  if status = 200 then
    match body with
    | .parsedBody m raw => .resolvedWith (.parsedBody m raw)
    | .unparseable _ => .unsettled
  else
    .rejectedWith (createError body)

/-! ## Helper lemmas: association-list maps -/

theorem lookup_objSet {α β : Type} [BEq α] [LawfulBEq α]
    (m : List (α × β)) (k : α) (v : β) :
    List.lookup k (objSet m k v) = some v := by
  unfold objSet
  by_cases h : (List.lookup k m).isSome
  · rw [if_pos h]
    induction m with
    | nil => simp at h
    | cons hd tl ih =>
      obtain ⟨k1, v1⟩ := hd
      by_cases hk : k1 = k
      · subst hk
        simp [List.lookup_cons_self]
      · have hb : (k1 == k) = false := beq_eq_false_iff_ne.mpr hk
        have hb2 : (k == k1) = false := beq_eq_false_iff_ne.mpr (Ne.symm hk)
        rw [List.lookup_cons, hb2] at h
        simp only [List.map_cons]
        rw [if_neg (by simp [hb]), List.lookup_cons, hb2]
        exact ih h
  · rw [if_neg h]
    rw [Option.not_isSome_iff_eq_none] at h
    rw [List.lookup_append, h, Option.none_or, List.lookup_cons_self]

theorem lookup_objDelete {α β : Type} [BEq α] [LawfulBEq α]
    (m : List (α × β)) (k : α) :
    List.lookup k (objDelete m k) = none := by
  rw [List.lookup_eq_none_iff]
  intro p hp
  have := List.of_mem_filter hp
  simp only [Bool.not_eq_true'] at this
  simp only [bne_iff_ne, ne_eq]
  intro hkp
  rw [hkp] at this
  simp at this

theorem mem_objSet {α β : Type} [BEq α]
    (m : List (α × β)) (k : α) (v : β) :
    ∀ p ∈ objSet m k v, p ∈ m ∨ p = (k, v) := by
  intro p hp
  unfold objSet at hp
  split at hp
  · rcases List.mem_map.mp hp with ⟨q, hq, hfq⟩
    by_cases hqk : (q.1 == k)
    · right
      rw [if_pos hqk] at hfq
      exact hfq.symm
    · left
      rw [if_neg hqk] at hfq
      exact hfq ▸ hq
  · rcases List.mem_append.mp hp with h | h
    · left; exact h
    · right; simpa using h

theorem mem_objDelete {α β : Type} [BEq α]
    (m : List (α × β)) (k : α) :
    ∀ p ∈ objDelete m k, p ∈ m := by
  intro p hp
  exact List.mem_of_mem_filter hp

/-! ## Helper lemmas: entity action state -/

theorem lookup_setAction (st : EntityState) (a : Nat) (v : ℚ) :
    List.lookup a (setAction st a v).actions = if v = 0 then none else some v := by
  unfold setAction
  cases hL : List.lookup a st.actions with
  | none =>
    unfold setActionStore
    by_cases hv : v = 0
    · simp [hv, lookup_objDelete]
    · simp [hv, lookup_objSet]
  | some w =>
    by_cases hc : w ≠ 0 ∧ w = v
    · obtain ⟨hw0, hwv⟩ := hc
      subst hwv
      simp [hL, hw0]
    · unfold setActionStore
      by_cases hv : v = 0
      · simp [hc, hv, lookup_objDelete]
      · simp [hc, hv, lookup_objSet]

theorem setAction_of_lookup_none {st : EntityState} {a : Nat}
    (h : List.lookup a st.actions = none) (v : ℚ) :
    setAction st a v = setActionStore st a v := by
  unfold setAction
  rw [h]

theorem setAction_of_lookup_self {st : EntityState} {a : Nat} {v : ℚ}
    (hv : v ≠ 0) (h : List.lookup a st.actions = some v) :
    setAction st a v = st := by
  unfold setAction
  rw [h]
  simp [hv]

theorem setAction_noZero {st : EntityState}
    (h : ∀ p ∈ st.actions, p.2 ≠ 0) (a : Nat) (v : ℚ) :
    ∀ p ∈ (setAction st a v).actions, p.2 ≠ 0 := by
  have hstore : ∀ p ∈ (setActionStore st a v).actions, p.2 ≠ 0 := by
    intro p hp
    unfold setActionStore at hp
    by_cases hv : v = 0
    · simp only [hv, ne_eq, not_true_eq_false, if_neg, if_false] at hp
      exact h p (mem_objDelete _ _ p hp)
    · simp only [if_pos, hv, ne_eq, not_false_eq_true, if_true] at hp
      rcases mem_objSet _ _ _ p hp with hmem | hpv
      · exact h p hmem
      · rw [hpv]; exact hv
  unfold setAction
  cases hL : List.lookup a st.actions with
  | none => exact hstore
  | some w =>
    show ∀ p ∈ (if w ≠ 0 ∧ w = v then st else setActionStore st a v).actions, p.2 ≠ 0
    by_cases hc : w ≠ 0 ∧ w = v
    · rw [if_pos hc]
      exact h
    · rw [if_neg hc]
      exact hstore

theorem applyOps_noZero (ops : List ActionOp) :
    ∀ st : EntityState, (∀ p ∈ st.actions, p.2 ≠ 0) →
      ∀ p ∈ (applyOps st ops).actions, p.2 ≠ 0 := by
  induction ops with
  | nil => intro st h; exact h
  | cons op tl ih =>
    intro st h
    show ∀ p ∈ (applyOps (applyOp st op) tl).actions, p.2 ≠ 0
    apply ih
    cases op with
    | set a v => exact setAction_noZero h a v
    | clear =>
      intro p hp
      simp only [applyOp, clearInput] at hp
      exact absurd hp (List.not_mem_nil p)

/-! ## Claim theorems: entity action state and physics codec -/

/-- Claim C3, counterexample: calling `setAction(1, 0)` twice in succession on
a fresh entity triggers two `sendInput` propagations, not one — the no-change
guard `this.actions[action] && …` never fires for value `0` because an absent
entry is not a stored truthy value. -/
theorem c3_counterexample :
    (applyOps initialEntityState [ActionOp.set 1 0, ActionOp.set 1 0]).sendCount = 2 := by
  decide

/-- Claim C3 (amended): calling `setAction(a, v)` twice in succession with the
same `v ≠ 0` makes the second call a complete no-op (no state change, no
`sendInput` propagation), so at most one of the two calls propagates; with
`v = 0`, each of the two calls triggers a propagation, because the no-change
guard requires the stored value to be truthy (nonzero) and an absent or zero
entry never satisfies it. -/
theorem c3_amended_propagation (st : EntityState) (a : Nat) (v : ℚ) :
    (v ≠ 0 → setAction (setAction st a v) a v = setAction st a v) ∧
    (v = 0 → (setAction (setAction st a v) a v).sendCount =
      (setAction st a v).sendCount + 1) := by
  constructor
  · intro hv
    have hL : List.lookup a (setAction st a v).actions = some v := by
      rw [lookup_setAction, if_neg hv]
    exact setAction_of_lookup_self hv hL
  · intro hv
    have hL : List.lookup a (setAction st a v).actions = none := by
      rw [lookup_setAction, if_pos hv]
    rw [setAction_of_lookup_none hL v]
    rfl

/-- Witness for C3 (amended) at concrete inputs: a second `setAction(1, 1)` is
a no-op, while a second `setAction(2, 0)` still increments the propagation
count. -/
theorem c3_amended_propagation_witness :
    setAction (setAction initialEntityState 1 1) 1 1 =
      setAction initialEntityState 1 1 ∧
    (setAction (setAction initialEntityState 2 0) 2 0).sendCount =
      (setAction initialEntityState 2 0).sendCount + 1 :=
  ⟨(c3_amended_propagation initialEntityState 1 1).1 (by norm_num),
   (c3_amended_propagation initialEntityState 2 0).2 rfl⟩

/-- Claim C9: after any sequence of `setAction` and `clearInput` operations
starting from the entity constructor's empty container, the `actions` container
holds no entry with pressure value `0` (a key is present only while its value
is nonzero), and for an absent action `getForce` reads back `0`. -/
theorem c9_no_zero_entries (ops : List ActionOp) (a : Nat) (v : ℚ) :
    ((a, v) ∈ (applyOps initialEntityState ops).actions → v ≠ 0) ∧
    (List.lookup a (applyOps initialEntityState ops).actions = none →
      getForce (applyOps initialEntityState ops) a = 0) := by
  constructor
  · intro hmem
    exact applyOps_noZero ops initialEntityState (by intro p hp; simp [initialEntityState] at hp)
      (a, v) hmem
  · intro hnone
    unfold getForce
    rw [hnone]
    rfl

/-- Witness for C9 at concrete inputs: after `setAction(1, 1)` the entry
`(1, 1)` is present with a nonzero value, and the absent action `2` reads back
force `0`. -/
theorem c9_no_zero_entries_witness :
    (1 : ℚ) ≠ 0 ∧ getForce (applyOps initialEntityState [ActionOp.set 1 1]) 2 = 0 :=
  ⟨(c9_no_zero_entries [ActionOp.set 1 1] 1 1).1 (by decide),
   (c9_no_zero_entries [ActionOp.set 1 1] 2 0).2 (by decide)⟩

theorem toFixed4_close (x : ℚ) : |toFixed4 x - x| ≤ 1 / 20000 := by
  have h1 : ((⌊x * 10000 + 1 / 2⌋ : ℤ) : ℚ) ≤ x * 10000 + 1 / 2 := Int.floor_le _
  have h2 : x * 10000 + 1 / 2 < ((⌊x * 10000 + 1 / 2⌋ : ℤ) : ℚ) + 1 := Int.lt_floor_add_one _
  rw [toFixed4, abs_le]
  constructor
  · linarith
  · linarith

/-- Claim C2: encoding a physics body with `serializePhysics` and decoding the
snapshot onto another body with `consumeUpdate` reproduces the source body's
kinematic fields — angular velocity, 2-D position (the `interpolatedPosition`
the codec serializes), 2-D linear velocity and angle — on the target body to 4
decimal digits of precision (each component within half of `10⁻⁴`). -/
theorem c2_physics_roundtrip (b target : PhysicsBody) :
    |(consumeUpdate (serializePhysics (some b)) target).angularVelocity -
        b.angularVelocity| ≤ 1 / 20000 ∧
    |(consumeUpdate (serializePhysics (some b)) target).position.1 -
        b.interpolatedPosition.1| ≤ 1 / 20000 ∧
    |(consumeUpdate (serializePhysics (some b)) target).position.2 -
        b.interpolatedPosition.2| ≤ 1 / 20000 ∧
    |(consumeUpdate (serializePhysics (some b)) target).velocity.1 -
        b.velocity.1| ≤ 1 / 20000 ∧
    |(consumeUpdate (serializePhysics (some b)) target).velocity.2 -
        b.velocity.2| ≤ 1 / 20000 ∧
    |(consumeUpdate (serializePhysics (some b)) target).angle - b.angle| ≤ 1 / 20000 := by
  refine ⟨?_, ?_, ?_, ?_, ?_, ?_⟩ <;>
    simp only [consumeUpdate, serializePhysics] <;>
    exact toFixed4_close _

/-! ## Claim theorems: controller polling and registration -/

theorem getRaw_apply (dz : ℚ) (prev : CKey → Option ℚ) (axes buttons : List ℚ)
    (k : CKey) :
    getRawControllerInput true dz prev axes buttons k =
      match rawFrameVal dz axes buttons k with
      | none => none
      | some v => if v = 0 ∧ previousHadValue prev k = false then none else some v := rfl

/-- Claim C4: for any controller key across two consecutive polling ticks, if
its computed (pre-suppression) value is `0` on both ticks then the second
tick's emitted set has no entry for that key; if it transitions from a nonzero
computed value to `0`, the second tick emits the single entry `0` for it. -/
theorem c4_edge_suppression (dz : ℚ) (prev : CKey → Option ℚ)
    (axes1 buttons1 axes2 buttons2 : List ℚ) (k : CKey) (v : ℚ) :
    (rawFrameVal dz axes1 buttons1 k = some 0 →
      rawFrameVal dz axes2 buttons2 k = some 0 →
      getRawControllerInput true dz
        (getRawControllerInput true dz prev axes1 buttons1) axes2 buttons2 k = none) ∧
    (rawFrameVal dz axes1 buttons1 k = some v → v ≠ 0 →
      rawFrameVal dz axes2 buttons2 k = some 0 →
      getRawControllerInput true dz
        (getRawControllerInput true dz prev axes1 buttons1) axes2 buttons2 k = some 0) := by
  constructor
  · intro h1 h2
    rw [getRaw_apply, h2]
    have hprev :
        previousHadValue (getRawControllerInput true dz prev axes1 buttons1) k = false := by
      unfold previousHadValue
      rw [getRaw_apply, h1]
      by_cases hp : previousHadValue prev k = false
      · simp [hp]
      · simp [hp]
    simp [hprev]
  · intro h1 hv h2
    rw [getRaw_apply, h2]
    have hprev :
        previousHadValue (getRawControllerInput true dz prev axes1 buttons1) k = true := by
      unfold previousHadValue
      rw [getRaw_apply, h1]
      simp [hv]
    simp [hprev]

/-- Witness for C4 at concrete inputs: with deadzone `2`, a button reading `3`
on the first tick and `0` on the second makes the second tick emit exactly the
entry `0` for that button. -/
theorem c4_edge_suppression_witness :
    getRawControllerInput true 2
      (getRawControllerInput true 2 (fun _ => none) [] [3]) [] [0]
      (CKey.button 0) = some 0 :=
  (c4_edge_suppression 2 (fun _ => none) [] [3] [] [0] (CKey.button 0) 3).2
    (by decide) (by decide) (by decide)

/-- Claim C5, counterexample: with deadzone `2`, a first tick with axis value
`3` (outside the deadzone) followed by a second tick with axis value `1` — so
every axis magnitude on the second tick is `≤` the deadzone — still emits the
axis entry `axes0 = 0` on the second tick, because the zero value transitions
from the nonzero previous frame.  The claim that such a tick contains no axis
entries is therefore false. -/
theorem c5_counterexample :
    |(1 : ℚ)| ≤ 2 ∧
    getRawControllerInput true 2
      (getRawControllerInput true 2 (fun _ => none) [3] []) [1] []
      (CKey.axes 0) = some 0 := by
  constructor
  · decide
  · decide

/-- Claim C5 (amended): when every axis magnitude is at most the configured
deadzone, the tick emits no axis entry with a nonzero value — every axis key
is either absent or carries the value `0` — and an axis key for which the
previous emitted frame held no nonzero value is absent altogether. -/
theorem c5_amended_deadzone (dz : ℚ) (prev : CKey → Option ℚ)
    (axes buttons : List ℚ) (h : ∀ v ∈ axes, |v| ≤ dz) (i : Nat) :
    (getRawControllerInput true dz prev axes buttons (CKey.axes i) = none ∨
     getRawControllerInput true dz prev axes buttons (CKey.axes i) = some 0) ∧
    (previousHadValue prev (CKey.axes i) = false →
      getRawControllerInput true dz prev axes buttons (CKey.axes i) = none) := by
  have hdz : isOutOfDeadzone dz axes = false := by
    unfold isOutOfDeadzone
    by_contra hc
    rw [Bool.not_eq_false, List.any_eq_true] at hc
    obtain ⟨v, hv, hgt⟩ := hc
    exact absurd (h v hv) (not_le.mpr (of_decide_eq_true hgt))
  cases hg : axes.get? i with
  | none =>
    have he : getRawControllerInput true dz prev axes buttons (CKey.axes i) = none := by
      rw [getRaw_apply]
      show (match (axes.get? i).map
        (fun val => if isOutOfDeadzone dz axes then -val else 0) with
        | none => none
        | some v => if v = 0 ∧ previousHadValue prev (CKey.axes i) = false then none
                    else some v) = none
      rw [hg]
      rfl
    exact ⟨Or.inl he, fun _ => he⟩
  | some val =>
    have hval : rawFrameVal dz axes buttons (CKey.axes i) = some 0 := by
      show (axes.get? i).map (fun val => if isOutOfDeadzone dz axes then -val else 0) = some 0
      rw [hg]
      simp [hdz]
    constructor
    · by_cases hp : previousHadValue prev (CKey.axes i) = false
      · left
        rw [getRaw_apply, hval]
        simp [hp]
      · right
        rw [getRaw_apply, hval]
        simp [hp]
    · intro hp
      rw [getRaw_apply, hval]
      simp [hp]

/-- Witness for C5 (amended) at concrete inputs: deadzone `2`, single axis
value `1`, empty previous frame — the tick emits no entry for `axes0`. -/
theorem c5_amended_deadzone_witness :
    getRawControllerInput true 2 (fun _ => none) [1] [] (CKey.axes 0) = none :=
  (c5_amended_deadzone 2 (fun _ => none) [1] [] (by decide) 0).2 (by decide)

/-- Claim C8, evaluation of the code at the failing inputs: registering an
entity whose `actions` container is absent logs the error yet still adds the
entity to `registeredEntities` (the guard has no early return, so the call is
not skipped), and registering `null` logs the error and then throws a
`TypeError` while reading `entity.uuid` (so the failure is fatal, not a
reported-and-skipped error). -/
theorem c8_register_behavior :
    registerEntity (some ⟨"e1", none⟩) [] =
      (true, Except.ok [("e1", ⟨"e1", none⟩)]) ∧
    registerEntity none [] = (true, Except.error ()) :=
  ⟨rfl, rfl⟩

/-! ## Helper lemmas: network session -/

theorem receiveMessage_pending (s : NetworkState) (m : String) :
    (receiveMessage s m).pendingResponses = s.pendingResponses := rfl

theorem receiveMessage_socket (s : NetworkState) (m : String) :
    (receiveMessage s m).socket = s.socket := rfl

theorem foldl_receive_pending (msgs : List String) (s : NetworkState) :
    (msgs.foldl receiveMessage s).pendingResponses = s.pendingResponses := by
  induction msgs generalizing s with
  | nil => rfl
  | cons m tl ih => rw [List.foldl_cons, ih, receiveMessage_pending]

theorem foldl_receive_socket (msgs : List String) (s : NetworkState) :
    (msgs.foldl receiveMessage s).socket = s.socket := by
  induction msgs generalizing s with
  | nil => rfl
  | cons m tl ih => rw [List.foldl_cons, ih, receiveMessage_socket]

theorem mem_listeners_foldl_receive {e : String} (msgs : List String)
    (hmsgs : e ∉ msgs) (s : NetworkState) (hs : e ∈ s.listeners) :
    e ∈ (msgs.foldl receiveMessage s).listeners := by
  induction msgs generalizing s with
  | nil => exact hs
  | cons m tl ih =>
    rw [List.foldl_cons]
    refine ih (fun h => hmsgs (List.mem_cons_of_mem _ h)) _ ?_
    have hem : (e == m) = false :=
      beq_eq_false_iff_ne.mpr (fun h => hmsgs (h ▸ List.mem_cons_self _ _))
    simp [receiveMessage, List.mem_filter, hs, hem]

theorem emitAndAwaitResponse_fresh {s : NetworkState} {e : String}
    (hsock : s.socket = true) (hpend : e ∉ s.pendingResponses) :
    (emitAndAwaitResponse e none s).2 = none ∧
    (emitAndAwaitResponse e none s).1.socket = true ∧
    e ∈ (emitAndAwaitResponse e none s).1.pendingResponses ∧
    e ∈ (emitAndAwaitResponse e none s).1.listeners := by
  unfold emitAndAwaitResponse
  simp [hsock, hpend, setAdd, installOnce]

theorem emitAndAwaitResponse_alreadyPending {s : NetworkState} {e : String}
    (r : Option String) (hsock : s.socket = true) (hpend : e ∈ s.pendingResponses) :
    emitAndAwaitResponse e r s = (s, some .listenerAlreadyInstalled) := by
  unfold emitAndAwaitResponse
  simp [hsock, hpend]

theorem waitForMessage_alreadyPending {s : NetworkState} {e : String}
    (hsock : s.socket = true) (hpend : e ∈ s.pendingResponses) :
    waitForMessage e s = (s, some .listenerAlreadyInstalled) := by
  unfold waitForMessage
  simp [hsock, hpend]

/-! ## Claim theorems: network session -/

/-- Claim C1: with a socket installed and endpoint `e` not yet pending, a first
`emitAndAwaitResponse(e)` succeeds (throws nothing); while its response has not
arrived (messages may arrive on other endpoints, but none on `e`), a second
`emitAndAwaitResponse(e)` fails immediately with the `Listener already
installed.` error and returns the state unchanged, so the first call's one-shot
response listener on `e` is still installed and its eventual resolution is
unaltered. -/
theorem c1_correlation_exclusivity (s : NetworkState) (e : String)
    (msgs : List String) (hsock : s.socket = true)
    (hpend : e ∉ s.pendingResponses) (hmsgs : e ∉ msgs) :
    (emitAndAwaitResponse e none s).2 = none ∧
    emitAndAwaitResponse e none
        (msgs.foldl receiveMessage (emitAndAwaitResponse e none s).1) =
      (msgs.foldl receiveMessage (emitAndAwaitResponse e none s).1,
        some NetError.listenerAlreadyInstalled) ∧
    e ∈ (msgs.foldl receiveMessage (emitAndAwaitResponse e none s).1).listeners := by
  obtain ⟨herr, hsock1, hpend1, hlist1⟩ := emitAndAwaitResponse_fresh hsock hpend
  refine ⟨herr, ?_, ?_⟩
  · apply emitAndAwaitResponse_alreadyPending
    · rw [foldl_receive_socket]
      exact hsock1
    · rw [foldl_receive_pending]
      exact hpend1
  · exact mem_listeners_foldl_receive msgs hmsgs _ hlist1

/-- Witness for C1 at concrete inputs: a fresh session with a socket, endpoint
`ping`, no interleaved messages. -/
theorem c1_correlation_exclusivity_witness :
    (emitAndAwaitResponse "ping" none ⟨true, [], []⟩).2 = none ∧
    emitAndAwaitResponse "ping" none (emitAndAwaitResponse "ping" none ⟨true, [], []⟩).1 =
      ((emitAndAwaitResponse "ping" none ⟨true, [], []⟩).1,
        some NetError.listenerAlreadyInstalled) ∧
    "ping" ∈ (emitAndAwaitResponse "ping" none ⟨true, [], []⟩).1.listeners := by
  have h := c1_correlation_exclusivity ⟨true, [], []⟩ "ping" [] rfl
    (by decide) (by decide)
  exact h

/-- Claim C6: nothing ever removes a `pendingResponses` entry — after
`emitAndAwaitResponse(e)` has been issued, any sequence of arriving messages
(including the response on `e` itself) leaves the registry unchanged, and every
later `emitAndAwaitResponse` or `waitForMessage` on `e` fails with the
`Listener already installed.` error. -/
theorem c6_pending_never_cleared (s : NetworkState) (e : String) (r : Option String)
    (msgs : List String) (hsock : s.socket = true) (hpend : e ∉ s.pendingResponses) :
    (msgs.foldl receiveMessage (emitAndAwaitResponse e none s).1).pendingResponses =
      (emitAndAwaitResponse e none s).1.pendingResponses ∧
    (emitAndAwaitResponse e r
        (msgs.foldl receiveMessage (emitAndAwaitResponse e none s).1)).2 =
      some NetError.listenerAlreadyInstalled ∧
    (waitForMessage e
        (msgs.foldl receiveMessage (emitAndAwaitResponse e none s).1)).2 =
      some NetError.listenerAlreadyInstalled := by
  obtain ⟨herr, hsock1, hpend1, hlist1⟩ := emitAndAwaitResponse_fresh hsock hpend
  have hsock2 : (msgs.foldl receiveMessage (emitAndAwaitResponse e none s).1).socket = true := by
    rw [foldl_receive_socket]
    exact hsock1
  have hpend2 : e ∈ (msgs.foldl receiveMessage (emitAndAwaitResponse e none s).1).pendingResponses := by
    rw [foldl_receive_pending]
    exact hpend1
  refine ⟨foldl_receive_pending msgs _, ?_, ?_⟩
  · rw [emitAndAwaitResponse_alreadyPending r hsock2 hpend2]
  · rw [waitForMessage_alreadyPending hsock2 hpend2]

/-- Witness for C6 at concrete inputs: endpoint `ping`, with the correlated
response on `ping` itself having arrived in between. -/
theorem c6_pending_never_cleared_witness :
    (["ping"].foldl receiveMessage (emitAndAwaitResponse "ping" none ⟨true, [], []⟩).1).pendingResponses =
      (emitAndAwaitResponse "ping" none ⟨true, [], []⟩).1.pendingResponses ∧
    (emitAndAwaitResponse "ping" none
        (["ping"].foldl receiveMessage (emitAndAwaitResponse "ping" none ⟨true, [], []⟩).1)).2 =
      some NetError.listenerAlreadyInstalled ∧
    (waitForMessage "ping"
        (["ping"].foldl receiveMessage (emitAndAwaitResponse "ping" none ⟨true, [], []⟩).1)).2 =
      some NetError.listenerAlreadyInstalled :=
  c6_pending_never_cleared ⟨true, [], []⟩ "ping" none ["ping"] rfl (by decide)

/-- Claim C10: with no socket installed, both `emitAndAwaitResponse` and
`waitForMessage` fail immediately with the `No socket installed.` error, and
the state — in particular the pending-call registry — is left unchanged. -/
theorem c10_no_socket (s : NetworkState) (e : String) (r : Option String)
    (hsock : s.socket = false) :
    emitAndAwaitResponse e r s = (s, some NetError.noSocket) ∧
    waitForMessage e s = (s, some NetError.noSocket) := by
  unfold emitAndAwaitResponse waitForMessage
  simp [hsock]

/-- Witness for C10 at a concrete input: a session that never connected. -/
theorem c10_no_socket_witness :
    emitAndAwaitResponse "ping" none ⟨false, [], []⟩ =
      (⟨false, [], []⟩, some NetError.noSocket) ∧
    waitForMessage "ping" ⟨false, [], []⟩ = (⟨false, [], []⟩, some NetError.noSocket) :=
  c10_no_socket ⟨false, [], []⟩ "ping" none rfl

/-! ## Claim theorems: plain HTTP-style calls -/

/-- Claim C7, counterexample: a GET receiving status `304` with a parseable
body rejects with the body's message — it does not resolve, although the claim
says GET succeeds on 304 (the code gives 304-success to POST instead). -/
theorem c7_counterexample :
    createGetRequest 304 (RespBody.parsedBody (some "ok") "raw") =
      ReqOutcome.rejectedWith "ok" ∧
    createGetRequest 304 (RespBody.parsedBody (some "ok") "raw") ≠
      ReqOutcome.resolvedWith (RespBody.parsedBody (some "ok") "raw") := by
  constructor
  · rfl
  · decide

/-- Claim C7 (amended): each plain call resolves with the parsed response
exactly on its success statuses — 200 for GET and DELETE, 200 or additionally
304 for POST — and on any other status rejects with an error message taken
from the parsed body's `message` field, falling back to the raw body text when
the body is not parseable. -/
theorem c7_amended_status_codes (status : Nat) (body : RespBody)
    (m : Option String) (msg raw : String) :
    (createGetRequest status (RespBody.parsedBody m raw) =
        ReqOutcome.resolvedWith (RespBody.parsedBody m raw) ↔ status = 200) ∧
    (createDeleteRequest status (RespBody.parsedBody m raw) =
        ReqOutcome.resolvedWith (RespBody.parsedBody m raw) ↔ status = 200) ∧
    (createPostRequest status (RespBody.parsedBody m raw) =
        ReqOutcome.resolvedWith (RespBody.parsedBody m raw) ↔
        (status = 200 ∨ status = 304)) ∧
    (status ≠ 200 → createGetRequest status body = .rejectedWith (createError body)) ∧
    (status ≠ 200 → createDeleteRequest status body = .rejectedWith (createError body)) ∧
    (¬(status = 200 ∨ status = 304) →
      createPostRequest status body = .rejectedWith (createError body)) ∧
    createError (RespBody.parsedBody (some msg) raw) = msg ∧
    createError (RespBody.unparseable raw) = raw := by
  refine ⟨?_, ?_, ?_, ?_, ?_, ?_, rfl, rfl⟩
  · unfold createGetRequest
    by_cases hs : status = 200 <;> simp [hs]
  · unfold createDeleteRequest
    by_cases hs : status = 200 <;> simp [hs]
  · unfold createPostRequest
    by_cases hs : status = 200 ∨ status = 304 <;> simp [hs]
  · intro hs
    unfold createGetRequest
    rw [if_neg hs]
  · intro hs
    unfold createDeleteRequest
    rw [if_neg hs]
  · intro hs
    unfold createPostRequest
    rw [if_neg hs]

/-- Witness for C7 (amended) at concrete inputs: status `404` with a parseable
body carrying message `nope` makes GET reject with `nope`. -/
theorem c7_amended_status_codes_witness :
    createGetRequest 404 (RespBody.parsedBody (some "nope") "r") =
      ReqOutcome.rejectedWith
        (createError (RespBody.parsedBody (some "nope") "r")) :=
  (c7_amended_status_codes 404 (RespBody.parsedBody (some "nope") "r")
      (some "nope") "nope" "r").2.2.2.1 (by decide)
